import Mathlib

/-!
Shallow embedding of the offline-first task-sync backend
(TaskService, SyncService, and the batch sync router).

Modelling conventions:
* Timestamps are `Nat` (milliseconds since epoch; only their order matters).
* Ids (uuidv4 in the source) are `Nat`, drawn from a per-database fresh-id
  counter `nextId`; this models global uniqueness of generated ids.
* The SQLite database is a `DB` record: the `tasks` table, the `sync_queue`
  table (both as lists in row-insertion order), and the id counter.
* `Partial<Task>` payloads are `TaskPatch` records of `Option` fields
  (`none` = the field is absent / `undefined`).
* Network effects are parameters: the connectivity probe result is a `Bool`
  argument and the batch POST is an oracle
  `List SyncQueueItem → Except String BatchSyncResponse`, where
  `Except.error msg` models the request throwing with message `msg`.
* `new Date()` calls inside one pass are modelled by a single `now` argument.
-/

namespace TaskSync

inductive SyncStatus where
  | pending
  | synced
  | error
deriving Repr, DecidableEq

inductive Op where
  | create
  | update
  | delete
deriving Repr, DecidableEq

/-- Tags used in the `operation` field of a sync-result error entry
(the source writes plain strings there: an intent operation, or one of
the literals used in the engine: conflict / connectivity / unknown). -/
inductive ErrOp where
  | create
  | update
  | delete
  | conflict
  | connectivity
  | unknown
deriving Repr, DecidableEq

/-- A row of the `tasks` table / a `Task` object. -/
structure Task where
  id : Nat
  title : String
  description : String
  completed : Bool
  created_at : Nat
  updated_at : Nat
  is_deleted : Bool
  sync_status : SyncStatus
  server_id : Option Nat
  last_synced_at : Option Nat
deriving Repr, DecidableEq

/-- A `Partial<Task>` payload: every field optional (`none` = absent). -/
structure TaskPatch where
  id : Option Nat := none
  title : Option String := none
  description : Option String := none
  completed : Option Bool := none
  updated_at : Option Nat := none
  server_id : Option Nat := none
deriving Repr, DecidableEq

/-- A full task used where the source passes a `Task` as `Partial<Task>`. -/
def taskToPatch (t : Task) : TaskPatch :=
  { id := some t.id, title := some t.title, description := some t.description,
    completed := some t.completed, updated_at := some t.updated_at,
    server_id := t.server_id }

/-- A row of the `sync_queue` table / a `SyncQueueItem`. -/
structure SyncQueueItem where
  id : Nat
  task_id : Nat
  operation : Op
  data : TaskPatch
  created_at : Nat
  retry_count : Nat
  error_message : Option String
deriving Repr, DecidableEq

/-- An entry of `SyncResult.errors`. `task_id = none` models the literal
string N/A used for pass-level entries. -/
structure SyncErrorEntry where
  task_id : Option Nat
  operation : ErrOp
  error : String
  timestamp : Nat
deriving Repr, DecidableEq

structure SyncResult where
  success : Bool
  synced_items : Nat
  failed_items : Nat
  errors : List SyncErrorEntry
deriving Repr, DecidableEq

inductive ItemStatus where
  | success
  | conflict
  | error
deriving Repr, DecidableEq

/-- One element of `BatchSyncResponse.processed_items`. -/
structure ProcessedItem where
  client_id : Nat
  server_id : Option Nat
  status : ItemStatus
  resolved_data : Option Task
  error : Option String
deriving Repr, DecidableEq

structure BatchSyncResponse where
  processed_items : List ProcessedItem
deriving Repr, DecidableEq

/-- The SQLite database: `tasks` table, `sync_queue` table, and the
fresh-id counter standing in for uuidv4 generation. -/
structure DB where
  tasks : List Task
  syncQueue : List SyncQueueItem
  nextId : Nat
deriving Repr, DecidableEq

def opToErrOp : Op → ErrOp
  | .create => .create
  | .update => .update
  | .delete => .delete

/-! ## TaskService -/

/-- `TaskService.getTask`: `SELECT * FROM tasks WHERE id = ? AND is_deleted = 0`
(first matching row). -/
def getTask (id : Nat) (db : DB) : Option Task :=
  db.tasks.find? (fun t => t.id == id && !t.is_deleted)

/-- `TaskService.addToSyncQueue` (the private helper; `SyncService.addToSyncQueue`
is textually the same): INSERT a fresh-id row with `retry_count = 0`. -/
def addToSyncQueue (now : Nat) (taskId : Nat) (operation : Op)
    (data : TaskPatch) (db : DB) : DB :=
  let qid := db.nextId
  { db with
    nextId := db.nextId + 1,
    syncQueue := db.syncQueue ++
      [{ id := qid, task_id := taskId, operation := operation, data := data,
         created_at := now, retry_count := 0, error_message := none }] }

/-- `TaskService.createTask`: build the task with a fresh uuid
(`taskData.title || ''` and `taskData.description || ''` default absent
fields to the empty string), INSERT it, then enqueue a `create` intent. -/
def createTask (now : Nat) (taskData : TaskPatch) (db : DB) : Task × DB :=
  let id := db.nextId
  let db1 : DB := { db with nextId := db.nextId + 1 }
  let task : Task :=
    { id := id,
      title := taskData.title.getD "",
      description := taskData.description.getD "",
      completed := false,
      created_at := now,
      updated_at := now,
      is_deleted := false,
      sync_status := .pending,
      server_id := none,
      last_synced_at := none }
  let db2 : DB := { db1 with tasks := db1.tasks ++ [task] }
  let db3 := addToSyncQueue now task.id .create (taskToPatch task) db2
  (task, db3)

/-- `TaskService.updateTask`: if the task is visible, UPDATE the provided
fields plus `updated_at = now, sync_status = pending`, re-read the row and
enqueue an `update` intent carrying the updated snapshot. -/
def updateTask (now : Nat) (id : Nat) (updates : TaskPatch) (db : DB) :
    Option Task × DB :=
  match getTask id db with
  | none => (none, db)
  | some _ =>
    let db1 : DB :=
      { db with tasks := db.tasks.map (fun t =>
          if t.id = id then
            { t with
              title := updates.title.getD t.title,
              description := updates.description.getD t.description,
              completed := updates.completed.getD t.completed,
              updated_at := now,
              sync_status := .pending }
          else t) }
    match getTask id db1 with
    | some updatedTask =>
      (some updatedTask, addToSyncQueue now id .update (taskToPatch updatedTask) db1)
    | none => (none, db1)

/-- `TaskService.deleteTask`: if the task is visible, soft-delete it
(`is_deleted = 1, updated_at = now, sync_status = pending`) and enqueue a
`delete` intent carrying the pre-delete snapshot; otherwise return false. -/
def deleteTask (now : Nat) (id : Nat) (db : DB) : Bool × DB :=
  match getTask id db with
  | none => (false, db)
  | some task =>
    let db1 : DB :=
      { db with tasks := db.tasks.map (fun t =>
          if t.id = id then
            { t with is_deleted := true, updated_at := now, sync_status := .pending }
          else t) }
    (true, addToSyncQueue now id .delete (taskToPatch task) db1)

/-! ## SyncService -/

/-- `SyncService.getSyncQueueItems`:
`SELECT * FROM sync_queue ORDER BY created_at ASC` (the SQL leaves the
relative order of equal timestamps unspecified; a stable insertion sort is
one implementation of it). -/
def getSyncQueueItems (db : DB) : List SyncQueueItem :=
  db.syncQueue.insertionSort (fun a b => a.created_at ≤ b.created_at)

/-- `SyncService.resolveConflict`: whole-record last-write-wins on
`updated_at`, server wins ties. -/
def resolveConflict (localTask serverTask : Task) : Task :=
  if localTask.updated_at > serverTask.updated_at then
    localTask
  else if serverTask.updated_at > localTask.updated_at then
    serverTask
  else
    serverTask

/-- `SyncService.updateSyncStatus`: UPDATE `sync_status` and
`last_synced_at`, and also `server_id` when `serverData?.server_id`
is present, on the row `WHERE id = taskId`. -/
def updateSyncStatus (now : Nat) (taskId : Nat) (status : SyncStatus)
    (serverData : Option TaskPatch) (db : DB) : DB :=
  { db with tasks := db.tasks.map (fun t =>
      if t.id = taskId then
        { t with
          sync_status := status,
          last_synced_at := some now,
          server_id :=
            match serverData with
            | some sd =>
              match sd.server_id with
              | some s => some s
              | none => t.server_id
            | none => t.server_id }
      else t) }

/-- `SyncService.handleSyncError`: bump `retry_count` and store
`error_message` on the intent row; once the new count reaches
`maxRetries`, additionally flag the owning task `sync_status = error`.
The intent row is updated, never deleted. -/
def handleSyncError (maxRetries : Nat) (item : SyncQueueItem) (msg : String)
    (db : DB) : DB :=
  let newRetryCount := item.retry_count + 1
  if newRetryCount ≥ maxRetries then
    let db1 : DB :=
      { db with tasks := db.tasks.map (fun t =>
          if t.id = item.task_id then { t with sync_status := .error } else t) }
    { db1 with syncQueue := db1.syncQueue.map (fun q =>
        if q.id = item.id then
          { q with retry_count := newRetryCount, error_message := some msg }
        else q) }
  else
    { db with syncQueue := db.syncQueue.map (fun q =>
        if q.id = item.id then
          { q with retry_count := newRetryCount, error_message := some msg }
        else q) }

/-- `SyncService.removeFromSyncQueue`:
`DELETE FROM sync_queue WHERE task_id = ?` — note the key is the TASK id,
so every intent referencing that task is deleted. -/
def removeFromSyncQueue (taskId : Nat) (db : DB) : DB :=
  { db with syncQueue := db.syncQueue.filter (fun q => q.task_id != taskId) }

/-- The per-item reconciliation step of `SyncService.sync` (the body of the
`for (const processedItem of batchResponse.processed_items)` loop). -/
def handleItem (maxRetries now : Nat) (batch : List SyncQueueItem)
    (pi : ProcessedItem) (acc : SyncResult × DB) : SyncResult × DB :=
  let result := acc.1
  let db := acc.2
  match pi.status with
  | .success =>
    let db1 := updateSyncStatus now pi.client_id .synced
      (some { server_id := pi.server_id }) db
    let result1 := { result with synced_items := result.synced_items + 1 }
    (result1, removeFromSyncQueue pi.client_id db1)
  | .conflict =>
    match getTask pi.client_id db, pi.resolved_data with
    | some localTask, some rdata =>
      let resolved := resolveConflict localTask rdata
      let db1 := updateSyncStatus now pi.client_id .synced
        (some (taskToPatch resolved)) db
      let result1 :=
        { result with
          synced_items := result.synced_items + 1,
          errors := result.errors ++
            [{ task_id := some pi.client_id, operation := .conflict,
               error := "Conflict resolved using last-write-wins",
               timestamp := now }] }
      (result1, removeFromSyncQueue pi.client_id db1)
    | _, _ => (result, db)
  | .error =>
    let queueItem := batch.find? (fun item => item.task_id == pi.client_id)
    let errMsg := pi.error.getD "Unknown error"
    let db1 :=
      match queueItem with
      | some qi => handleSyncError maxRetries qi errMsg db
      | none => db
    let result1 :=
      { result with
        failed_items := result.failed_items + 1,
        errors := result.errors ++
          [{ task_id := some pi.client_id,
             operation :=
               match queueItem with
               | some qi => opToErrOp qi.operation
               | none => .unknown,
             error := errMsg,
             timestamp := now }] }
    (result1, db1)

/-- The error entry pushed for one member intent of an entirely-failed
batch. -/
def batchFailEntry (now : Nat) (msg : String) (item : SyncQueueItem) :
    SyncErrorEntry :=
  { task_id := some item.task_id, operation := opToErrOp item.operation,
    error := msg, timestamp := now }

/-- One `try { processBatch ... } catch { ... }` iteration of the batch loop:
on a response, reconcile each processed item; on a thrown request
(`Except.error msg`), mark the pass unsuccessful, count the whole batch
as failed, and record a failure for every member intent. -/
def processBatchOutcome (maxRetries now : Nat) (batch : List SyncQueueItem)
    (resp : Except String BatchSyncResponse) (acc : SyncResult × DB) :
    SyncResult × DB :=
  match resp with
  | .ok r => r.processed_items.foldl (fun a pi => handleItem maxRetries now batch pi a) acc
  | .error msg =>
    let result := acc.1
    let result1 :=
      { result with success := false,
                    failed_items := result.failed_items + batch.length }
    batch.foldl
      (fun (a : SyncResult × DB) item =>
        ({ a.1 with errors := a.1.errors ++ [batchFailEntry now msg item] },
         handleSyncError maxRetries item msg a.2))
      (result1, acc.2)

/-- Helper for `chunks`: the structural fuel argument bounds the number of
remaining elements, so the definition reduces by iota; each step slices off
the next chunk of `n` elements. -/
def chunksGo (n : Nat) : Nat → List SyncQueueItem → List (List SyncQueueItem)
  | 0, _ => []
  | _ + 1, [] => []
  | fuel + 1, a :: rest =>
    (a :: rest.take (n - 1)) :: chunksGo n fuel (rest.drop (n - 1))

/-- The `for (let i = 0; i < queueItems.length; i += this.batchSize)` slicing:
consecutive chunks of size `n` (last one may be shorter). -/
def chunks (n : Nat) (l : List SyncQueueItem) : List (List SyncQueueItem) :=
  chunksGo n l.length l

/-- The batch loop of `SyncService.sync`, batch by batch, each submitted to
the remote oracle; a failed batch does not stop later batches. -/
def syncBatches (maxRetries now : Nat)
    (remote : List SyncQueueItem → Except String BatchSyncResponse) :
    List (List SyncQueueItem) → SyncResult × DB → SyncResult × DB
  | [], acc => acc
  | b :: bs, acc =>
    syncBatches maxRetries now remote bs
      (processBatchOutcome maxRetries now b (remote b) acc)

/-- `SyncService.sync`: connectivity probe, drain the queue sorted by
`created_at`, process it in `batchSize` slices. `isOnline` is the result of
`checkConnectivity`; `remote` is the batch-POST oracle. -/
def sync (maxRetries batchSize now : Nat) (isOnline : Bool)
    (remote : List SyncQueueItem → Except String BatchSyncResponse)
    (db : DB) : SyncResult × DB :=
  let result : SyncResult :=
    { success := true, synced_items := 0, failed_items := 0, errors := [] }
  if !isOnline then
    ({ result with
       success := false,
       errors := [{ task_id := none, operation := .connectivity,
                    error := "Server is not reachable", timestamp := now }] },
     db)
  else
    let queueItems := getSyncQueueItems db
    if queueItems.isEmpty then (result, db)
    else syncBatches maxRetries now remote (chunks batchSize queueItems) (result, db)

/-! ## Remote Apply Surface (the POST /batch route of the sync router) -/

/-- One iteration of the `for (const item of items)` loop in the batch
route: the `switch (item.operation)` applying the intent to authoritative
state through TaskService. (The route's `default: unknown operation` arm is
unreachable here because `Op` has exactly the three typed operations.) -/
def applyBatchItem (now : Nat) (item : SyncQueueItem) (db : DB) :
    ProcessedItem × DB :=
  match item.operation with
  | .create =>
    let r := createTask now item.data db
    ({ client_id := item.task_id, server_id := some r.1.id,
       status := .success, resolved_data := some r.1, error := none }, r.2)
  | .update =>
    let r := updateTask now item.task_id item.data db
    match r.1 with
    | some updatedTask =>
      ({ client_id := item.task_id,
         server_id := some (updatedTask.server_id.getD updatedTask.id),
         status := .success, resolved_data := some updatedTask,
         error := none }, r.2)
    | none =>
      ({ client_id := item.task_id, server_id := some item.task_id,
         status := .error, resolved_data := none,
         error := some "Task not found" }, r.2)
  | .delete =>
    let r := deleteTask now item.task_id db
    if r.1 then
      ({ client_id := item.task_id, server_id := some item.task_id,
         status := .success, resolved_data := none, error := none }, r.2)
    else
      ({ client_id := item.task_id, server_id := some item.task_id,
         status := .error, resolved_data := none,
         error := some "Task not found" }, r.2)

/-- The whole POST /batch handler body: apply each item in order and collect
the processed results. -/
def applyBatch (now : Nat) (items : List SyncQueueItem) (db : DB) :
    BatchSyncResponse × DB :=
  let r := items.foldl
    (fun (a : List ProcessedItem × DB) item =>
      let s := applyBatchItem now item a.2
      (a.1 ++ [s.1], s.2))
    ([], db)
  ({ processed_items := r.1 }, r.2)

/-! ## Concrete fixtures used by witnesses and counterexamples -/

/-- A local task with `updated_at = 5`. -/
def T1 : Task :=
  { id := 1, title := "local", description := "ld", completed := false,
    created_at := 1, updated_at := 5, is_deleted := false,
    sync_status := .pending, server_id := none, last_synced_at := none }

/-- A remote-provided version of the same task, strictly newer
(`updated_at = 10`) and with different content fields. -/
def RT1 : Task :=
  { id := 1, title := "remote", description := "rd", completed := true,
    created_at := 1, updated_at := 10, is_deleted := false,
    sync_status := .synced, server_id := some 77, last_synced_at := some 9 }

/-- A create intent for task 1, enqueued at time 1. -/
def i10 : SyncQueueItem :=
  { id := 10, task_id := 1, operation := .create, data := taskToPatch T1,
    created_at := 1, retry_count := 0, error_message := none }

/-- A second, later intent for the SAME task 1, enqueued at time 2. -/
def i11 : SyncQueueItem :=
  { id := 11, task_id := 1, operation := .update, data := taskToPatch T1,
    created_at := 2, retry_count := 0, error_message := none }

/-- Database holding task 1 and a single intent for it. -/
def cdb : DB := { tasks := [T1], syncQueue := [i10], nextId := 50 }

/-- Database holding task 1 and two queued intents for it. -/
def c3db : DB := { tasks := [T1], syncQueue := [i10, i11], nextId := 100 }

/-- Remote oracle answering every batch with a single `conflict` outcome for
client 1, carrying `RT1` as `resolved_data`. -/
def conflictRemote : List SyncQueueItem → Except String BatchSyncResponse :=
  fun _ => .ok { processed_items :=
    [{ client_id := 1, server_id := none, status := .conflict,
       resolved_data := some RT1, error := none }] }

/-- Remote oracle answering every batch with a single `success` outcome for
client 1. -/
def successRemote : List SyncQueueItem → Except String BatchSyncResponse :=
  fun _ => .ok { processed_items :=
    [{ client_id := 1, server_id := some 77, status := .success,
       resolved_data := none, error := none }] }

/-- The conflict outcome item used by the C1 witness. -/
def cpi : ProcessedItem :=
  { client_id := 1, server_id := none, status := .conflict,
    resolved_data := some RT1, error := none }

/-- The success outcome item used by the C3 witness. -/
def spi : ProcessedItem :=
  { client_id := 1, server_id := some 77, status := .success,
    resolved_data := none, error := none }

/-- A create intent whose client-side task id is 100. -/
def citem4 : SyncQueueItem :=
  { id := 9, task_id := 100, operation := .create,
    data := { title := some "A" }, created_at := 1, retry_count := 0,
    error_message := none }

/-- An empty authoritative database with the id generator at 0. -/
def c4db : DB := { tasks := [], syncQueue := [], nextId := 0 }

/-- The all-zero sync result a pass starts from. -/
def emptyResult : SyncResult :=
  { success := true, synced_items := 0, failed_items := 0, errors := [] }

/-- The intent `i10` after two recorded failures. -/
def i10c : SyncQueueItem := { i10 with retry_count := 2 }

/-- Database holding task 1 and the twice-failed intent `i10c`. -/
def cdbCeil : DB := { tasks := [T1], syncQueue := [i10c], nextId := 50 }

/-- The pointwise effect of `handleSyncError` on one sync-queue row: the
targeted intent gets the bumped `retry_count` and the stored message,
every other row is untouched. -/
def bumpIntent (item : SyncQueueItem) (msg : String) (q : SyncQueueItem) :
    SyncQueueItem :=
  if q.id = item.id then
    { q with retry_count := item.retry_count + 1, error_message := some msg }
  else q

/-! ## Claim theorems -/

/-- C2: `resolveConflict` implements whole-record last-write-wins on
`updated_at` — a strictly newer local task wins, a strictly newer remote
task wins, equal timestamps go to the remote (server authority), and
`resolve(t, t) = t`. Totality and absence of mutation are by construction:
`resolveConflict` is a pure Lean function returning one of its inputs. -/
theorem resolveConflict_lww (l r : Task) :
    (r.updated_at < l.updated_at → resolveConflict l r = l) ∧
    (l.updated_at < r.updated_at → resolveConflict l r = r) ∧
    (l.updated_at = r.updated_at → resolveConflict l r = r) ∧
    resolveConflict l l = l := by
  unfold resolveConflict
  refine ⟨?_, ?_, ?_, ?_⟩ <;> intros <;> split_ifs <;> first | rfl | omega

/-- C2 witness: the last-write-wins properties evaluated on the concrete
pair `T1` (local, `updated_at = 5`) and `RT1` (remote, `updated_at = 10`). -/
theorem resolveConflict_lww_witness :
    T1.updated_at < RT1.updated_at ∧
    resolveConflict T1 RT1 = RT1 ∧ resolveConflict RT1 T1 = RT1 ∧
    resolveConflict T1 T1 = T1 :=
  ⟨by decide, (resolveConflict_lww T1 RT1).2.1 (by decide),
   (resolveConflict_lww RT1 T1).1 (by decide),
   (resolveConflict_lww T1 RT1).2.2.2⟩

/-- C7: when the connectivity probe reports the remote unreachable, the
pass returns `success = false` with exactly one connectivity error entry,
zero counts, and the database (tasks and sync queue alike) is returned
exactly as it was — no mutation at all. -/
theorem sync_offline_no_mutation (maxRetries batchSize now : Nat)
    (remote : List SyncQueueItem → Except String BatchSyncResponse) (db : DB) :
    sync maxRetries batchSize now false remote db =
      ({ success := false, synced_items := 0, failed_items := 0,
         errors := [{ task_id := none, operation := .connectivity,
                      error := "Server is not reachable", timestamp := now }] },
       db) := rfl

/-- C9: every task returned by `createTask` has `completed = false`,
`is_deleted = false`, `sync_status = pending`, unset `server_id` and
`last_synced_at`, and `created_at = updated_at`; when the payload has no
title the created title is the empty string (the service does not enforce
non-empty titles). -/
theorem createTask_defaults (now : Nat) (taskData : TaskPatch) (db : DB) :
    (createTask now taskData db).1.completed = false ∧
    (createTask now taskData db).1.is_deleted = false ∧
    (createTask now taskData db).1.sync_status = .pending ∧
    (createTask now taskData db).1.server_id = none ∧
    (createTask now taskData db).1.last_synced_at = none ∧
    (createTask now taskData db).1.created_at =
      (createTask now taskData db).1.updated_at ∧
    (taskData.title = none → (createTask now taskData db).1.title = "") := by
  refine ⟨rfl, rfl, rfl, rfl, rfl, rfl, ?_⟩
  intro h
  simp [createTask, h]

/-- C9 witness: `createTask` on the empty payload (title absent) over the
empty database yields the defaults, in particular the empty title. -/
theorem createTask_defaults_witness :
    (createTask 5 {} c4db).1.title = "" ∧
    (createTask 5 {} c4db).1.sync_status = .pending :=
  ⟨(createTask_defaults 5 {} c4db).2.2.2.2.2.2 rfl,
   (createTask_defaults 5 {} c4db).2.2.1⟩

/-- `addToSyncQueue` writes only the sync-queue table, so `getTask` reads
through it unchanged. -/
theorem getTask_addToSyncQueue (i now taskId : Nat) (op : Op)
    (data : TaskPatch) (db : DB) :
    getTask i (addToSyncQueue now taskId op data db) = getTask i db := rfl

/-- C10: `deleteTask` returns false and leaves the database untouched (in
particular appends no intent) whenever the target is absent or already
soft-deleted; consequently it is not idempotent — after a successful
`deleteTask`, a second `deleteTask` on the same id returns false, because
`getTask` filters out soft-deleted rows. -/
theorem deleteTask_second_call_fails (now now2 : Nat) (id : Nat) (db db1 : DB) :
    (getTask id db = none → deleteTask now id db = (false, db)) ∧
    (deleteTask now id db = (true, db1) → deleteTask now2 id db1 = (false, db1)) := by
  constructor
  · intro h
    simp [deleteTask, h]
  · intro h
    unfold deleteTask at h
    cases hg : getTask id db with
    | none =>
      rw [hg] at h
      simp at h
    | some task =>
      rw [hg] at h
      simp only [Prod.mk.injEq] at h
      obtain ⟨-, hdb1⟩ := h
      subst hdb1
      have hnone : getTask id (addToSyncQueue now id .delete (taskToPatch task)
          { db with tasks := db.tasks.map (fun t =>
              if t.id = id then
                { t with is_deleted := true, updated_at := now,
                         sync_status := .pending }
              else t) }) = none := by
        rw [getTask_addToSyncQueue]
        unfold getTask
        rw [List.find?_eq_none]
        intro t ht
        simp only [List.mem_map] at ht
        obtain ⟨s, _, rfl⟩ := ht
        by_cases hid : s.id = id
        · simp [hid]
        · simp [hid]
      simp [deleteTask, hnone]

/-- C10 witness: deleting task 1 in `cdb` succeeds once; the call on the
post-delete database returns false and changes nothing, and deleting a
missing id returns false. -/
theorem deleteTask_second_call_fails_witness :
    deleteTask 8 1 (deleteTask 7 1 cdb).2 = (false, (deleteTask 7 1 cdb).2) ∧
    deleteTask 7 99 cdb = (false, cdb) :=
  ⟨(deleteTask_second_call_fails 7 8 1 cdb (deleteTask 7 1 cdb).2).2 (by decide),
   (deleteTask_second_call_fails 7 8 99 cdb cdb).1 (by decide)⟩

/-- C5: enforcing the retry ceiling at record-failure time. When the new
failure count `retry_count + 1` reaches the configured `maxRetries`, the
owning task is flagged `sync_status = error` and the intent stays in the
queue (updated in place, never removed — the queue keeps its length); when
the count is still below the ceiling, only the intent row changes
(`retry_count` incremented, `error_message` stored) and the tasks table —
hence every task's `sync_status` — is untouched. -/
theorem handleSyncError_retry_ceiling (maxRetries : Nat) (item : SyncQueueItem)
    (msg : String) (db : DB) (hmem : item ∈ db.syncQueue) :
    (handleSyncError maxRetries item msg db).syncQueue.length =
      db.syncQueue.length ∧
    { item with retry_count := item.retry_count + 1,
                error_message := some msg } ∈
      (handleSyncError maxRetries item msg db).syncQueue ∧
    (item.retry_count + 1 ≥ maxRetries →
      ∀ t ∈ (handleSyncError maxRetries item msg db).tasks,
        t.id = item.task_id → t.sync_status = .error) ∧
    (item.retry_count + 1 < maxRetries →
      (handleSyncError maxRetries item msg db).tasks = db.tasks) := by
  unfold handleSyncError
  by_cases hge : item.retry_count + 1 ≥ maxRetries
  · rw [if_pos hge]
    refine ⟨by simp, ?_, ?_, ?_⟩
    · have := List.mem_map_of_mem
        (fun q => if q.id = item.id then
          { q with retry_count := item.retry_count + 1,
                   error_message := some msg }
         else q) hmem
      simpa using this
    · intro _ t ht htid
      simp only [List.mem_map] at ht
      obtain ⟨s, _, rfl⟩ := ht
      by_cases hid : s.id = item.task_id
      · simp [hid]
      · simp only [if_neg hid] at htid ⊢
        exact absurd htid hid
    · intro hlt
      omega
  · rw [if_neg hge]
    refine ⟨by simp, ?_, ?_, ?_⟩
    · have := List.mem_map_of_mem
        (fun q => if q.id = item.id then
          { q with retry_count := item.retry_count + 1,
                   error_message := some msg }
         else q) hmem
      simpa using this
    · intro hge2
      omega
    · intro _
      rfl

/-- C5 witness: with ceiling 3, an intent failing from `retry_count = 2`
flags task 1 as errored while staying queued, and one failing from
`retry_count = 0` leaves the tasks table unchanged. -/
theorem handleSyncError_retry_ceiling_witness :
    ({ i10c with retry_count := i10c.retry_count + 1,
                 error_message := some "boom" } ∈
      (handleSyncError 3 i10c "boom" cdbCeil).syncQueue) ∧
    (∀ t ∈ (handleSyncError 3 i10c "boom" cdbCeil).tasks,
      t.id = i10c.task_id → t.sync_status = .error) ∧
    (handleSyncError 3 i10 "boom" cdb).tasks = cdb.tasks :=
  ⟨(handleSyncError_retry_ceiling 3 i10c "boom" cdbCeil (by decide)).2.1,
   (handleSyncError_retry_ceiling 3 i10c "boom" cdbCeil
      (by decide)).2.2.1 (by decide),
   (handleSyncError_retry_ceiling 3 i10 "boom" cdb (by decide)).2.2.2
      (by decide)⟩

/-- Fuel-general form of `chunks_flatten`: any fuel at least the list
length slices the list exhaustively. -/
theorem chunksGo_flatten (n : Nat) :
    ∀ (fuel : Nat) (l : List SyncQueueItem), l.length ≤ fuel →
      (chunksGo n fuel l).flatten = l
  | 0, l, h => by
    have : l = [] := List.eq_nil_of_length_eq_zero (Nat.le_zero.mp h)
    subst this
    rfl
  | _ + 1, [], _ => rfl
  | fuel + 1, a :: rest, h => by
    have hlen : (rest.drop (n - 1)).length ≤ fuel := by
      simp only [List.length_drop]
      simp only [List.length_cons] at h
      omega
    have ih := chunksGo_flatten n fuel (rest.drop (n - 1)) hlen
    simp [chunksGo, ih, List.take_append_drop]

/-- Flattening the batch slices gives back the drained list: the batch loop
visits every intent exactly once, in drained order. -/
theorem chunks_flatten (n : Nat) (l : List SyncQueueItem) :
    (chunks n l).flatten = l :=
  chunksGo_flatten n l.length l (Nat.le_refl _)

/-- C8: draining the queue returns all pending intents (a permutation of
the stored queue — nothing coalesced, nothing dropped) sorted by
`created_at` ascending, and slicing into batches preserves exactly that
order, so the engine processes intents oldest-first regardless of the
queue's insertion order. -/
theorem getSyncQueueItems_fifo (db : DB) (batchSize : Nat) :
    List.Pairwise (fun a b : SyncQueueItem => a.created_at ≤ b.created_at)
      (getSyncQueueItems db) ∧
    (getSyncQueueItems db).Perm db.syncQueue ∧
    (chunks batchSize (getSyncQueueItems db)).flatten = getSyncQueueItems db := by
  haveI htot : IsTotal SyncQueueItem
      (fun a b => a.created_at ≤ b.created_at) :=
    ⟨fun a b => Nat.le_total a.created_at b.created_at⟩
  haveI htrans : IsTrans SyncQueueItem
      (fun a b => a.created_at ≤ b.created_at) :=
    ⟨fun _ _ _ hab hbc => Nat.le_trans hab hbc⟩
  exact ⟨List.sorted_insertionSort _ db.syncQueue,
    List.perm_insertionSort _ db.syncQueue,
    chunks_flatten batchSize (getSyncQueueItems db)⟩

/-- C1 counterexample: a batch response reports `conflict` for task 1 with
a strictly newer remote version `RT1` (title "remote", completed true);
the conflict path does run (one item synced, one informational error
entry, `sync_status` flipped to `synced`), but the local record keeps its
own content fields — title stays "local" and completed stays false — so
the winner's fields are NOT persisted to the local task record. -/
theorem sync_conflict_keeps_local_content :
    T1.updated_at < RT1.updated_at ∧
    RT1.title = "remote" ∧ RT1.completed = true ∧
    resolveConflict T1 RT1 = RT1 ∧
    (sync 3 50 100 true conflictRemote cdb).1.synced_items = 1 ∧
    (sync 3 50 100 true conflictRemote cdb).1.errors.length = 1 ∧
    (sync 3 50 100 true conflictRemote cdb).2.tasks.map Task.sync_status =
      [.synced] ∧
    (sync 3 50 100 true conflictRemote cdb).2.tasks.map Task.title =
      ["local"] ∧
    (sync 3 50 100 true conflictRemote cdb).2.tasks.map Task.completed =
      [false] := by
  decide

/-- C1 amended: when a batch response item has status `conflict` and the
local task exists with `resolved_data` provided, the engine resolves local
against remote and marks the task `synced` with a fresh `last_synced_at`,
but persists of the winner only its `server_id` (when present) — the
winner's content fields are NOT written back, so even a newer remote
version leaves the local record's content untouched; it removes every
intent whose `task_id` is the reported client id from the queue,
increments `synced_items` by 1, and appends exactly one informational
conflict entry to the errors list. -/
theorem handleItem_conflict_spec (maxRetries now : Nat)
    (batch : List SyncQueueItem) (pi : ProcessedItem) (result : SyncResult)
    (db : DB) (lt rt : Task)
    (hstatus : pi.status = .conflict)
    (hget : getTask pi.client_id db = some lt)
    (hres : pi.resolved_data = some rt) :
    (handleItem maxRetries now batch pi (result, db)).1.synced_items =
      result.synced_items + 1 ∧
    (handleItem maxRetries now batch pi (result, db)).1.failed_items =
      result.failed_items ∧
    (handleItem maxRetries now batch pi (result, db)).1.success =
      result.success ∧
    (handleItem maxRetries now batch pi (result, db)).1.errors =
      result.errors ++
        [{ task_id := some pi.client_id, operation := .conflict,
           error := "Conflict resolved using last-write-wins",
           timestamp := now }] ∧
    (handleItem maxRetries now batch pi (result, db)).2.syncQueue =
      db.syncQueue.filter (fun q => q.task_id != pi.client_id) ∧
    (handleItem maxRetries now batch pi (result, db)).2.tasks =
      db.tasks.map (fun t =>
        if t.id = pi.client_id then
          { t with
            sync_status := .synced,
            last_synced_at := some now,
            server_id :=
              match (resolveConflict lt rt).server_id with
              | some s => some s
              | none => t.server_id }
        else t) ∧
    (handleItem maxRetries now batch pi (result, db)).2.nextId = db.nextId := by
  obtain ⟨cid, sid, status, rdata, err⟩ := pi
  simp only at hstatus hget hres
  subst hstatus
  subst hres
  simp [handleItem, hget, updateSyncStatus, removeFromSyncQueue, taskToPatch]

/-- C1 amended witness: the conflict item `cpi` for task 1 over `cdb`,
resolved against the newer remote `RT1`: one item synced, the intent queue
for task 1 emptied, content fields kept, one conflict entry appended. -/
theorem handleItem_conflict_spec_witness :
    (handleItem 3 100 [i10] cpi (emptyResult, cdb)).1.synced_items =
      emptyResult.synced_items + 1 ∧
    (handleItem 3 100 [i10] cpi (emptyResult, cdb)).1.errors =
      emptyResult.errors ++
        [{ task_id := some cpi.client_id, operation := .conflict,
           error := "Conflict resolved using last-write-wins",
           timestamp := 100 }] ∧
    (handleItem 3 100 [i10] cpi (emptyResult, cdb)).2.syncQueue =
      cdb.syncQueue.filter (fun q => q.task_id != cpi.client_id) := by
  have h := handleItem_conflict_spec 3 100 [i10] cpi emptyResult cdb T1 RT1
    rfl (by decide) rfl
  exact ⟨h.1, h.2.2.2.1, h.2.2.2.2.1⟩

/-- C3 counterexample: `c3db` queues two distinct intents (`i10`, then
`i11`) referencing the same task 1; the pass receives a single `success`
outcome for client 1, yet afterwards the queue is completely empty — the
second pending intent `i11` did NOT remain in the queue, because intent
removal deletes by `task_id` (`DELETE FROM sync_queue WHERE task_id = ?`),
not by intent id. -/
theorem sync_success_removes_sibling_intent :
    c3db.syncQueue = [i10, i11] ∧
    i10.task_id = i11.task_id ∧ i10.id ≠ i11.id ∧
    (sync 3 50 100 true successRemote c3db).1.synced_items = 1 ∧
    (sync 3 50 100 true successRemote c3db).2.syncQueue = [] := by
  decide

/-- C3 amended: when the engine handles a successful (or conflict-resolved)
outcome for one intent, it removes from the queue EVERY intent whose
`task_id` equals the outcome's client id — not just the single intent that
was processed — while every intent referencing a different task remains in
the queue unchanged and in order. -/
theorem handleItem_removes_all_task_intents (maxRetries now : Nat)
    (batch : List SyncQueueItem) (pi : ProcessedItem) (result : SyncResult)
    (db : DB) :
    (pi.status = .success →
      (handleItem maxRetries now batch pi (result, db)).2.syncQueue =
        db.syncQueue.filter (fun q => q.task_id != pi.client_id) ∧
      ∀ q ∈ db.syncQueue, q.task_id ≠ pi.client_id →
        q ∈ (handleItem maxRetries now batch pi (result, db)).2.syncQueue) ∧
    (pi.status = .conflict →
      ∀ lt rt : Task, getTask pi.client_id db = some lt →
        pi.resolved_data = some rt →
        (handleItem maxRetries now batch pi (result, db)).2.syncQueue =
          db.syncQueue.filter (fun q => q.task_id != pi.client_id)) := by
  obtain ⟨cid, sid, status, rdata, err⟩ := pi
  constructor
  · intro hstatus
    simp only at hstatus
    subst hstatus
    constructor
    · simp [handleItem, removeFromSyncQueue, updateSyncStatus]
    · intro q hq hne
      simp only [handleItem, removeFromSyncQueue, updateSyncStatus]
      simp only [List.mem_filter]
      exact ⟨hq, by simpa using hne⟩
  · intro hstatus lt rt hget hres
    simp only at hstatus hget hres
    subst hstatus
    subst hres
    simp [handleItem, hget, removeFromSyncQueue, updateSyncStatus]

/-- C3 amended witness: the success outcome `spi` for task 1 over `c3db`
deletes both of task 1's intents (the filter keeps nothing), and an intent
for another task would survive. -/
theorem handleItem_removes_all_task_intents_witness :
    (handleItem 3 100 [i10, i11] spi (emptyResult, c3db)).2.syncQueue =
      c3db.syncQueue.filter (fun q => q.task_id != spi.client_id) ∧
    (handleItem 3 100 [i10, i11] spi (emptyResult, c3db)).2.syncQueue = [] := by
  have h := (handleItem_removes_all_task_intents 3 100 [i10, i11] spi
    emptyResult c3db).1 rfl
  refine ⟨h.1, ?_⟩
  rw [h.1]
  decide

/-- C4 counterexample: applying the create intent `citem4` (client task id
100) to the empty authoritative store yields a record whose id is the
freshly generated 0 — not the client-assigned 100 carried by the intent —
and re-applying the very same intent yields a SECOND distinct record (ids
0 and 2), so the operation is not idempotent. -/
theorem applyBatchItem_create_not_idempotent :
    citem4.operation = .create ∧ citem4.task_id = 100 ∧
    (applyBatchItem 5 citem4 c4db).1.status = .success ∧
    (applyBatchItem 5 citem4 c4db).2.tasks.map Task.id = [0] ∧
    (0 : Nat) ≠ 100 ∧
    (applyBatchItem 6 citem4 (applyBatchItem 5 citem4 c4db).2).2.tasks.map
      Task.id = [0, 2] := by
  decide

/-- C4 amended: applying a `create` intent through the batch apply surface
always yields outcome `success`, but the new authoritative record's
identity is a freshly generated server id (`db.nextId`), independent of the
client-assigned id carried by the intent; the operation is therefore NOT
idempotent — re-applying the same create intent appends a second record
with a different id. -/
theorem applyBatchItem_create_spec (now now2 : Nat) (item : SyncQueueItem)
    (db : DB) (hop : item.operation = .create) :
    (applyBatchItem now item db).1.status = .success ∧
    (applyBatchItem now item db).1.client_id = item.task_id ∧
    (applyBatchItem now item db).1.server_id = some db.nextId ∧
    (applyBatchItem now item db).2.tasks =
      db.tasks ++ [(createTask now item.data db).1] ∧
    (createTask now item.data db).1.id = db.nextId ∧
    (applyBatchItem now2 item (applyBatchItem now item db).2).2.tasks.length =
      db.tasks.length + 2 ∧
    (createTask now2 item.data (applyBatchItem now item db).2).1.id =
      db.nextId + 2 := by
  obtain ⟨iid, tid, op, data, cat, rc, em⟩ := item
  simp only at hop
  subst hop
  simp [applyBatchItem, createTask, addToSyncQueue]

/-- C4 amended witness: the create intent `citem4` applied to `c4db`
succeeds with server id 0 (the generator value), appends one record, and a
second application brings the store to two records. -/
theorem applyBatchItem_create_spec_witness :
    (applyBatchItem 5 citem4 c4db).1.status = .success ∧
    (applyBatchItem 5 citem4 c4db).1.server_id = some c4db.nextId ∧
    (applyBatchItem 6 citem4 (applyBatchItem 5 citem4 c4db).2).2.tasks.length =
      c4db.tasks.length + 2 := by
  have h := applyBatchItem_create_spec 5 6 citem4 c4db rfl
  exact ⟨h.1, h.2.2.1, h.2.2.2.2.2.1⟩

/-- Both branches of `handleSyncError` perform the same sync-queue row
update, so the queue is always `bumpIntent`-mapped. -/
theorem handleSyncError_syncQueue (maxRetries : Nat) (item : SyncQueueItem)
    (msg : String) (db : DB) :
    (handleSyncError maxRetries item msg db).syncQueue =
      db.syncQueue.map (bumpIntent item msg) := by
  simp only [handleSyncError, bumpIntent]
  split <;> rfl

/-- The result component of the failed-batch fold: one error entry appended
per member intent, everything else untouched. -/
theorem batchFail_foldl_fst (maxRetries now : Nat) (msg : String) :
    ∀ (batch : List SyncQueueItem) (r : SyncResult) (db : DB),
      (batch.foldl
        (fun (a : SyncResult × DB) item =>
          ({ a.1 with errors := a.1.errors ++ [batchFailEntry now msg item] },
           handleSyncError maxRetries item msg a.2)) (r, db)).1 =
        { r with errors := r.errors ++ batch.map (batchFailEntry now msg) } := by
  intro batch
  induction batch with
  | nil => intro r db; simp
  | cons i rest ih =>
    intro r db
    rw [List.foldl_cons, ih]
    simp

/-- The database component of the failed-batch fold: `handleSyncError`
folded over the batch. -/
theorem batchFail_foldl_snd (maxRetries now : Nat) (msg : String) :
    ∀ (batch : List SyncQueueItem) (r : SyncResult) (db : DB),
      (batch.foldl
        (fun (a : SyncResult × DB) item =>
          ({ a.1 with errors := a.1.errors ++ [batchFailEntry now msg item] },
           handleSyncError maxRetries item msg a.2)) (r, db)).2 =
        batch.foldl (fun d i => handleSyncError maxRetries i msg d) db := by
  intro batch
  induction batch with
  | nil => intro r db; rfl
  | cons i rest ih =>
    intro r db
    rw [List.foldl_cons, List.foldl_cons, ih]

/-- Folding `handleSyncError` over a batch acts on the queue as folding the
pointwise `bumpIntent` maps. -/
theorem handleSyncError_foldl_queue (maxRetries : Nat) (msg : String) :
    ∀ (batch : List SyncQueueItem) (db : DB),
      (batch.foldl (fun d i => handleSyncError maxRetries i msg d) db).syncQueue =
        batch.foldl (fun l i => l.map (bumpIntent i msg)) db.syncQueue := by
  intro batch
  induction batch with
  | nil => intro db; rfl
  | cons i rest ih =>
    intro db
    rw [List.foldl_cons, List.foldl_cons, ih, handleSyncError_syncQueue]

/-- A row whose id differs from every batch member's id passes through the
folded `bumpIntent` maps unchanged. -/
theorem mem_bump_foldl_of_ne (msg : String) :
    ∀ (batch l : List SyncQueueItem) (x : SyncQueueItem),
      x ∈ l → (∀ j ∈ batch, x.id ≠ j.id) →
      x ∈ batch.foldl (fun l j => l.map (bumpIntent j msg)) l := by
  intro batch
  induction batch with
  | nil => intro l x hx _; exact hx
  | cons j rest ih =>
    intro l x hx hne
    rw [List.foldl_cons]
    refine ih _ x ?_ (fun k hk => hne k (List.mem_cons_of_mem j hk))
    have hfix : bumpIntent j msg x = x := by
      unfold bumpIntent
      rw [if_neg (hne j (List.mem_cons_self j rest))]
    exact hfix ▸ List.mem_map_of_mem _ hx

/-- Through the folded `bumpIntent` maps of a batch with pairwise-distinct
intent ids, the row matching a batch member ends up bumped exactly once. -/
theorem mem_bump_foldl (msg : String) :
    ∀ (batch l : List SyncQueueItem),
      List.Pairwise (fun a b => a.id ≠ b.id) batch →
      ∀ i ∈ batch, ∀ q ∈ l, q.id = i.id →
        { q with retry_count := i.retry_count + 1,
                 error_message := some msg } ∈
          batch.foldl (fun l j => l.map (bumpIntent j msg)) l := by
  intro batch
  induction batch with
  | nil => intro l _ i hi; exact absurd hi (List.not_mem_nil i)
  | cons j rest ih =>
    intro l hpw i hi q hq hqid
    obtain ⟨hhead, htail⟩ := List.pairwise_cons.mp hpw
    rw [List.foldl_cons]
    rcases List.mem_cons.mp hi with rfl | hi2
    · refine mem_bump_foldl_of_ne msg rest _ _ ?_ ?_
      · have hbump : bumpIntent i msg q =
            { q with retry_count := i.retry_count + 1,
                     error_message := some msg } := by
          unfold bumpIntent
          rw [if_pos hqid]
        exact hbump ▸ List.mem_map_of_mem _ hq
      · intro k hk
        have : i.id ≠ k.id := hhead k hk
        simpa [hqid] using this
    · have hji : j.id ≠ i.id := hhead i hi2
      refine ih _ htail i hi2 _ ?_ hqid
      have hfix : bumpIntent j msg q = q := by
        unfold bumpIntent
        rw [if_neg (by rw [hqid]; exact fun h => hji h.symm)]
      exact hfix ▸ List.mem_map_of_mem _ hq

/-- C6: when a whole-batch submission fails (`Except.error msg`), the pass
flag becomes false, `failed_items` grows by the batch size, `synced_items`
is untouched, one error entry is appended per member intent (in batch
order), every member intent's queue row receives a recorded failure
(`retry_count` incremented from the drained value, `error_message` stored),
and the batch loop continues with the remaining batches instead of
aborting. -/
theorem processBatchOutcome_batch_failure (maxRetries now : Nat)
    (batch : List SyncQueueItem) (msg : String) (result : SyncResult)
    (db : DB) :
    (processBatchOutcome maxRetries now batch (.error msg)
      (result, db)).1.success = false ∧
    (processBatchOutcome maxRetries now batch (.error msg)
      (result, db)).1.failed_items = result.failed_items + batch.length ∧
    (processBatchOutcome maxRetries now batch (.error msg)
      (result, db)).1.synced_items = result.synced_items ∧
    (processBatchOutcome maxRetries now batch (.error msg)
      (result, db)).1.errors =
        result.errors ++ batch.map (batchFailEntry now msg) ∧
    (List.Pairwise (fun a b => a.id ≠ b.id) batch →
      ∀ i ∈ batch, ∀ q ∈ db.syncQueue, q.id = i.id →
        { q with retry_count := i.retry_count + 1,
                 error_message := some msg } ∈
          (processBatchOutcome maxRetries now batch (.error msg)
            (result, db)).2.syncQueue) ∧
    (∀ (remote : List SyncQueueItem → Except String BatchSyncResponse)
        (bs : List (List SyncQueueItem)) (acc : SyncResult × DB),
      syncBatches maxRetries now remote (batch :: bs) acc =
        syncBatches maxRetries now remote bs
          (processBatchOutcome maxRetries now batch (remote batch) acc)) := by
  have hfst :
      (processBatchOutcome maxRetries now batch (.error msg)
        (result, db)).1 =
        { result with
          success := false,
          failed_items := result.failed_items + batch.length,
          errors := result.errors ++ batch.map (batchFailEntry now msg) } := by
    simp only [processBatchOutcome]
    rw [batchFail_foldl_fst]
  have hsnd :
      (processBatchOutcome maxRetries now batch (.error msg)
        (result, db)).2 =
        batch.foldl (fun d i => handleSyncError maxRetries i msg d) db := by
    simp only [processBatchOutcome]
    rw [batchFail_foldl_snd]
  refine ⟨by rw [hfst], by rw [hfst], by rw [hfst], by rw [hfst], ?_, ?_⟩
  · intro hpw i hi q hq hqid
    rw [hsnd, handleSyncError_foldl_queue]
    exact mem_bump_foldl msg batch db.syncQueue hpw i hi q hq hqid
  · intro remote bs acc
    rfl

/-- C6 witness: the two-intent batch of `c3db` fails entirely with message
"net down": the pass flag drops, both intents are counted and recorded
(retry counts bumped from 0 to 1), and one entry per intent is appended. -/
theorem processBatchOutcome_batch_failure_witness :
    (processBatchOutcome 3 100 [i10, i11] (.error "net down")
      (emptyResult, c3db)).1.success = false ∧
    (processBatchOutcome 3 100 [i10, i11] (.error "net down")
      (emptyResult, c3db)).1.failed_items = emptyResult.failed_items + 2 ∧
    ({ i10 with retry_count := i10.retry_count + 1,
                error_message := some "net down" } ∈
      (processBatchOutcome 3 100 [i10, i11] (.error "net down")
        (emptyResult, c3db)).2.syncQueue) ∧
    ({ i11 with retry_count := i11.retry_count + 1,
                error_message := some "net down" } ∈
      (processBatchOutcome 3 100 [i10, i11] (.error "net down")
        (emptyResult, c3db)).2.syncQueue) := by
  have h := processBatchOutcome_batch_failure 3 100 [i10, i11] "net down"
    emptyResult c3db
  exact ⟨h.1, h.2.1,
    h.2.2.2.2.1 (by decide) i10 (by decide) i10 (by decide) rfl,
    h.2.2.2.2.1 (by decide) i11 (by decide) i11 (by decide) rfl⟩

end TaskSync
